import Mathlib

/-!
Shallow embedding of `src/rotation_marker.js` (the 3D wireframe point-cloud
renderer).  JS finite numbers are modelled by `ℚ`; where the code calls
`Math.cos` / `Math.sin` the tick function is parametrized by the pair of
cosine/sine values (or by abstract functions `cosf sinf : ℚ → ℚ`), since the
matrices only ever use the computed `c`/`s` values.  Where the code can
produce NaN (malformed OBJ tokens, claim C9) JS numbers are modelled by
`Option ℚ` with `none` standing for a non-finite value, and arithmetic
propagating `none` exactly as NaN propagates.
-/

namespace RotationMarker

/-! ### Configuration constants (lines 100-136 of the source) -/

def perspectiveFOV : ℚ := 500
def modelScale : ℚ := 300
def dragSensitivity : ℚ := 1/100
def rotationInertia : ℚ := 99/100

def dotMinSize : ℚ := 2
def dotMaxSize : ℚ := 15
def dotMinAlpha : ℚ := 1/20
def dotMaxAlpha : ℚ := 1

def dotSizeDepthEffect : ℚ := 1/20
def dotSizeOffset : ℚ := -3/10
def dotAlphaDepthEffect : ℚ := 3/1000
def dotAlphaOffset : ℚ := 1/100

def dotCursorEffectRadius : ℚ := 150
def dotCursorSizeBoost : ℚ := 10
def dotCursorAlphaBoost : ℚ := 1
def dotCursorZCutoff : ℚ := 0

def lineMinAlpha : ℚ := 0
def lineMaxAlpha : ℚ := 1
def lineAlphaOffset : ℚ := 0

def lineCursorEffectRadius : ℚ := 100
def lineCursorAlphaBoost : ℚ := 1
def lineCursorZCutoff : ℚ := 0

/-! ### Matrix helpers (lines 319-323)

The source stores a 3x3 matrix as a flat row-major array `[m0,...,m8]`;
here the nine entries are the fields of a structure, `e<r><c>` being
`m[r*3+c]`. -/

structure Vec3 where
  x : ℚ
  y : ℚ
  z : ℚ
deriving DecidableEq, Repr

structure Mat3 where
  e00 : ℚ
  e01 : ℚ
  e02 : ℚ
  e10 : ℚ
  e11 : ℚ
  e12 : ℚ
  e20 : ℚ
  e21 : ℚ
  e22 : ℚ
deriving DecidableEq, Repr

/-- Source `identityMatrix()` (line 319). -/
def identityMatrix : Mat3 := ⟨1,0,0, 0,1,0, 0,0,1⟩

/-- Source `applyMatrix(m,v)` (line 320). -/
def applyMatrix (m : Mat3) (v : Vec3) : Vec3 :=
  ⟨m.e00*v.x + m.e01*v.y + m.e02*v.z,
   m.e10*v.x + m.e11*v.y + m.e12*v.z,
   m.e20*v.x + m.e21*v.y + m.e22*v.z⟩

/-- Source `multiplyMatrices(a,b)` (line 321): `m[r*3+c] = sum_k a[r*3+k]*b[k*3+c]`. -/
def multiplyMatrices (a b : Mat3) : Mat3 :=
  ⟨a.e00*b.e00 + a.e01*b.e10 + a.e02*b.e20,
   a.e00*b.e01 + a.e01*b.e11 + a.e02*b.e21,
   a.e00*b.e02 + a.e01*b.e12 + a.e02*b.e22,
   a.e10*b.e00 + a.e11*b.e10 + a.e12*b.e20,
   a.e10*b.e01 + a.e11*b.e11 + a.e12*b.e21,
   a.e10*b.e02 + a.e11*b.e12 + a.e12*b.e22,
   a.e20*b.e00 + a.e21*b.e10 + a.e22*b.e20,
   a.e20*b.e01 + a.e21*b.e11 + a.e22*b.e21,
   a.e20*b.e02 + a.e21*b.e12 + a.e22*b.e22⟩

/-- Source `rotationMatrixX(angle)` (line 322) after the code has computed
`c = Math.cos(angle)` and `s = Math.sin(angle)`: the array
`[1,0,0, 0,c,-s, 0,s,c]`, parametrized here by the values `c`, `s`. -/
def rotationMatrixX (c s : ℚ) : Mat3 := ⟨1,0,0, 0,c,-s, 0,s,c⟩

/-- Source `rotationMatrixY(angle)` (line 323): the array `[c,0,s, 0,1,0, -s,0,c]`,
parametrized by `c = cos angle`, `s = sin angle`. -/
def rotationMatrixY (c s : ℚ) : Mat3 := ⟨c,0,s, 0,1,0, -s,0,c⟩

/-- Transpose of a 3x3 matrix (not in the source; used to state
orthonormality of the rotation matrix, claim C8). -/
def transposeMat (m : Mat3) : Mat3 :=
  ⟨m.e00, m.e10, m.e20, m.e01, m.e11, m.e21, m.e02, m.e12, m.e22⟩

/-- A matrix is orthonormal when `M * Mᵀ = I`. -/
def IsOrthonormal (m : Mat3) : Prop :=
  multiplyMatrices m (transposeMat m) = identityMatrix

instance (m : Mat3) : Decidable (IsOrthonormal m) := by
  unfold IsOrthonormal
  infer_instance

/-! ### OBJ normalization (lines 194-213)

`Math.min(...xs)` / `Math.max(...xs)` on the non-empty coordinate lists are
folds of binary min/max over the list; on the empty list the JS spread gives
`Infinity` / `-Infinity`, outside the `ℚ` model, so `listMin`/`listMax`
return a junk value `0` there (every theorem below restricts to non-empty
lists). -/

def listMin : List ℚ → ℚ
  | [] => 0
  | x :: xs => xs.foldl min x

def listMax : List ℚ → ℚ
  | [] => 0
  | x :: xs => xs.foldl max x

def xsOf (verts : List Vec3) : List ℚ := verts.map Vec3.x
def ysOf (verts : List Vec3) : List ℚ := verts.map Vec3.y
def zsOf (verts : List Vec3) : List ℚ := verts.map Vec3.z

/-- Source `(Math.min(...l) + Math.max(...l))/2` — per-axis bounding-box midpoint
(lines 199-201). -/
def centerOf (l : List ℚ) : ℚ := (listMin l + listMax l) / 2

/-- Source `Math.max(...l) - Math.min(...l)` — per-axis span. -/
def spanOf (l : List ℚ) : ℚ := listMax l - listMin l

/-- Source `maxSize` (lines 203-207): the largest of the three axis spans. -/
def maxSizeOf (verts : List Vec3) : ℚ :=
  max (spanOf (xsOf verts)) (max (spanOf (ysOf verts)) (spanOf (zsOf verts)))

/-- The vertex remap of lines 209-213:
`v => [((v[0]-centerX)/maxSize)*modelScale, ...]`. -/
def normalizeVerts (verts : List Vec3) : List Vec3 :=
  let centerX := centerOf (xsOf verts)
  let centerY := centerOf (ysOf verts)
  let centerZ := centerOf (zsOf verts)
  let maxSize := maxSizeOf verts
  verts.map fun v =>
    ⟨(v.x - centerX) / maxSize * modelScale,
     (v.y - centerY) / maxSize * modelScale,
     (v.z - centerZ) / maxSize * modelScale⟩

/-! ### Projection (lines 233-239) -/

/-- One vertex of the projection loop: rotate by the matrix, then
`scale = perspectiveFOV / (perspectiveFOV + z + 5)` and
`[canvas.width/2 + x*scale, canvas.height/2 + y*scale, z]`.
`w`, `h` are `canvas.width`, `canvas.height`. -/
def project (m : Mat3) (v : Vec3) (w h : ℚ) : Vec3 :=
  let r := applyMatrix m v
  let scale := perspectiveFOV / (perspectiveFOV + r.z + 5)
  ⟨w/2 + r.x * scale, h/2 + r.y * scale, r.z⟩

/-! ### Rotation state and the animation tick (lines 224-231) -/

structure RotState where
  mat : Mat3
  velX : ℚ
  velY : ℚ
deriving DecidableEq, Repr

/-- The rotation-inertia block of `animate()` (lines 224-231), parametrized
by the `Math.cos` / `Math.sin` oracle pair `cosf sinf`:
if `|velX| > 0.0001 || |velY| > 0.0001 + 0.01`, compose
`rotationMatrix = rotY * (rotX * rotationMatrix)` and decay both velocities
by `rotationInertia`; otherwise the whole block is skipped. -/
def animateTick (cosf sinf : ℚ → ℚ) (s : RotState) : RotState :=
  if 1/10000 < |s.velX| ∨ 1/10000 + 1/100 < |s.velY| then
    { mat := multiplyMatrices (rotationMatrixY (cosf s.velY) (sinf s.velY))
        (multiplyMatrices (rotationMatrixX (cosf s.velX) (sinf s.velX)) s.mat),
      velX := s.velX * rotationInertia,
      velY := s.velY * rotationInertia }
  else s

/-- Iterate `k` consecutive animation ticks with no new drag input. -/
def ticks (cosf sinf : ℚ → ℚ) : ℕ → RotState → RotState
  | 0, s => s
  | k + 1, s => ticks cosf sinf k (animateTick cosf sinf s)

/-! ### Style resolver (lines 241-305) -/

/-- Source `Math.min(Math.max(x, lo), hi)` (lines 264, 304-305). -/
def clamp (x lo hi : ℚ) : ℚ := min (max x lo) hi

/-- Source `cursorFactor = Math.min(dist / effectRadius, 1)` (lines 250, 291). -/
def cursorFactorOf (dist radius : ℚ) : ℚ := min (dist / radius) 1

/-- Dot cursor influence (lines 293-298): the pair
`(cursorSizeEffect, cursorAlphaEffect)`, which is
`((1-cursorFactor)*dotCursorSizeBoost, (1-cursorFactor)*dotCursorAlphaBoost)`
when `z > dotCursorZCutoff` and `(0, 0)` otherwise.  `z` is the depth
already negated by the caller (`z = -p[2]`, line 281). -/
def dotCursorEffects (z dist : ℚ) : ℚ × ℚ :=
  if dotCursorZCutoff < z then
    ((1 - cursorFactorOf dist dotCursorEffectRadius) * dotCursorSizeBoost,
     (1 - cursorFactorOf dist dotCursorEffectRadius) * dotCursorAlphaBoost)
  else (0, 0)

/-- Dot styling (lines 279-305) for a projected point with third component
`pz` at Euclidean distance `dist` from the cursor: the final clamped
`(radius, alpha)` pair.  The depth used is `z = -p[2]` (line 281). -/
def dotStyle (pz dist : ℚ) : ℚ × ℚ :=
  let z := -pz
  let baseRadius := z * dotSizeDepthEffect + dotSizeOffset
  let baseAlpha := z * dotAlphaDepthEffect + dotAlphaOffset
  let eff := dotCursorEffects z dist
  (clamp (baseRadius + eff.1) dotMinSize dotMaxSize,
   clamp (baseAlpha + eff.2) dotMinAlpha dotMaxAlpha)

/-- Face (line) cursor influence (lines 256-259): `cursorEffect` is
`(1-cursorFactor)*lineCursorAlphaBoost` when `avgZ < lineCursorZCutoff`
(the mean depth is NOT negated here, unlike dots) and `0` otherwise. -/
def faceCursorEffect (avgZ dist : ℚ) : ℚ :=
  if avgZ < lineCursorZCutoff then
    (1 - cursorFactorOf dist lineCursorEffectRadius) * lineCursorAlphaBoost
  else 0

/-- Face (line) alpha (lines 252-264): base offset plus cursor effect,
clamped to `[lineMinAlpha, lineMaxAlpha]`. -/
def faceAlpha (avgZ dist : ℚ) : ℚ :=
  clamp (lineAlphaOffset + faceCursorEffect avgZ dist) lineMinAlpha lineMaxAlpha

/-! ### The OBJ loader with JS number semantics (lines 174-216)

For claim C9 the loader is embedded with JS-number semantics: a JS number
is `Option ℚ`, `none` standing for a non-finite value (NaN; also the
infinities, which never arise on the inputs considered).  Every arithmetic
operation and `Math.min`/`Math.max` propagate `none` exactly as NaN
propagates in JS. -/

abbrev JSNum : Type := Option ℚ

def jAdd : JSNum → JSNum → JSNum
  | some a, some b => some (a + b)
  | _, _ => none

def jSub : JSNum → JSNum → JSNum
  | some a, some b => some (a - b)
  | _, _ => none

def jMul : JSNum → JSNum → JSNum
  | some a, some b => some (a * b)
  | _, _ => none

/-- JS division; `x/0` is `Infinity`, `-Infinity` or `NaN`, all non-finite,
hence `none`. -/
def jDiv : JSNum → JSNum → JSNum
  | some a, some b => if b = 0 then none else some (a / b)
  | _, _ => none

/-- Binary `Math.min`: NaN absorbs. -/
def jsMin2 : JSNum → JSNum → JSNum
  | some a, some b => some (min a b)
  | _, _ => none

/-- Binary `Math.max`: NaN absorbs. -/
def jsMax2 : JSNum → JSNum → JSNum
  | some a, some b => some (max a b)
  | _, _ => none

/-- Spread `Math.min(...l)` on a non-empty list (the empty case gives `Infinity`
in JS, non-finite, hence `none`). -/
def jsMinList : List JSNum → JSNum
  | [] => none
  | x :: xs => xs.foldl jsMin2 x

/-- Spread `Math.max(...l)` on a non-empty list. -/
def jsMaxList : List JSNum → JSNum
  | [] => none
  | x :: xs => xs.foldl jsMax2 x

/-- Whitespace for JS `trim()` and `/\s+/` (space, tab, CR, LF, VT, FF). -/
def isWSChar (c : Char) : Bool :=
  c = ' ' || c = '\t' || c = '\r' || c = '\n' || c = '\x0b' || c = '\x0c'

/-- Source `text.split("\n")` on the character list of the text. -/
def splitLinesAux : List Char → List Char → List (List Char)
  | [], acc => [acc.reverse]
  | '\n' :: rest, acc => acc.reverse :: splitLinesAux rest []
  | c :: rest, acc => splitLinesAux rest (c :: acc)

def splitLines (l : List Char) : List (List Char) := splitLinesAux l []

/-- Source `line.trim()`. -/
def trimChars (l : List Char) : List Char :=
  ((l.dropWhile isWSChar).reverse.dropWhile isWSChar).reverse

/-- Source `line.split(/\s+/)` on an already-trimmed line: whitespace runs
separate tokens, empty tokens do not occur. -/
def splitWsAux : List Char → List Char → List (List Char)
  | [], tok => if tok.isEmpty then [] else [tok.reverse]
  | c :: rest, tok =>
    if isWSChar c then
      if tok.isEmpty then splitWsAux rest [] else tok.reverse :: splitWsAux rest []
    else splitWsAux rest (c :: tok)

def splitWs (l : List Char) : List (List Char) := splitWsAux l []

def digitsToNat (l : List Char) : ℕ :=
  l.foldl (fun n c => n * 10 + (c.toNat - 48)) 0

def parseSignQ : List Char → ℚ × List Char
  | '-' :: t => (-1, t)
  | '+' :: t => (1, t)
  | l => (1, l)

def parseSignZ : List Char → ℤ × List Char
  | '-' :: t => (-1, t)
  | '+' :: t => (1, t)
  | l => (1, l)

/-- JS `parseFloat` on a token: skip leading whitespace, optional sign,
longest numeric prefix `digits [. digits] [e/E [sign] digits]`; `NaN`
(`none`) when no digit is found before the exponent. -/
def jsParseFloatChars (l0 : List Char) : JSNum :=
  let l1 := l0.dropWhile isWSChar
  let sp := parseSignQ l1
  let ip := sp.2.takeWhile Char.isDigit
  let l3 := sp.2.dropWhile Char.isDigit
  let fr : List Char × List Char :=
    match l3 with
    | '.' :: t => (t.takeWhile Char.isDigit, t.dropWhile Char.isDigit)
    | _ => ([], l3)
  if ip.isEmpty && fr.1.isEmpty then none
  else
    let mantissa : ℚ := (digitsToNat ip : ℚ) + (digitsToNat fr.1 : ℚ) / (10 : ℚ) ^ fr.1.length
    let e : ℤ :=
      match fr.2 with
      | 'e' :: t =>
        let sq := parseSignZ t
        let ed := sq.2.takeWhile Char.isDigit
        if ed.isEmpty then 0 else sq.1 * (digitsToNat ed : ℤ)
      | 'E' :: t =>
        let sq := parseSignZ t
        let ed := sq.2.takeWhile Char.isDigit
        if ed.isEmpty then 0 else sq.1 * (digitsToNat ed : ℤ)
      | _ => 0
    some (sp.1 * mantissa * (10 : ℚ) ^ e)

/-- Source `parseFloat(parts[i])`: an out-of-range access yields `undefined` and
`parseFloat(undefined)` is NaN. -/
def jsParseFloatAt (parts : List (List Char)) (i : ℕ) : JSNum :=
  match parts.get? i with
  | some t => jsParseFloatChars t
  | none => none

/-- JS `parseInt(tok, 10)`: skip whitespace, optional sign, leading decimal
digits; NaN (`none`) when none. -/
def jsParseIntChars (l0 : List Char) : Option ℤ :=
  let sp := parseSignZ (l0.dropWhile isWSChar)
  let ds := sp.2.takeWhile Char.isDigit
  if ds.isEmpty then none else some (sp.1 * (digitsToNat ds : ℤ))

/-- A parsed vertex `[parseFloat(parts[1]), parseFloat(parts[2]),
parseFloat(parts[3])]`. -/
abbrev JSVec : Type := JSNum × JSNum × JSNum

/-- The line loop of `loadOBJ` (lines 179-192): trim each line; a line
starting with `"v "` pushes a vertex of the first three coordinate tokens;
a line starting with `"f "` pushes the face of its `parseInt`-ed,
1-based-to-0-based indices (`p.split("/")[0]`). -/
def parseOBJLines (ls : List (List Char)) :
    List JSVec × List (List (Option ℤ)) :=
  ls.foldl
    (fun acc line =>
      let line := trimChars line
      match line with
      | 'v' :: ' ' :: _ =>
        let parts := splitWs line
        (acc.1 ++ [(jsParseFloatAt parts 1, jsParseFloatAt parts 2, jsParseFloatAt parts 3)],
         acc.2)
      | 'f' :: ' ' :: _ =>
        let parts := (splitWs line).drop 1
        (acc.1,
         acc.2 ++ [parts.map fun p =>
           (jsParseIntChars (p.takeWhile fun c => c != '/')).map (· - 1)])
      | _ => acc)
    ([], [])

/-- The center-and-scale block of `loadOBJ` (lines 194-213) under JS number
semantics. -/
def jsNormalize (verts : List JSVec) : List JSVec :=
  let xs := verts.map Prod.fst
  let ys := verts.map fun v => v.2.1
  let zs := verts.map fun v => v.2.2
  let centerX := jDiv (jAdd (jsMinList xs) (jsMaxList xs)) (some 2)
  let centerY := jDiv (jAdd (jsMinList ys) (jsMaxList ys)) (some 2)
  let centerZ := jDiv (jAdd (jsMinList zs) (jsMaxList zs)) (some 2)
  let maxSize := jsMax2 (jSub (jsMaxList xs) (jsMinList xs))
    (jsMax2 (jSub (jsMaxList ys) (jsMinList ys)) (jSub (jsMaxList zs) (jsMinList zs)))
  verts.map fun v =>
    (jMul (jDiv (jSub v.1 centerX) maxSize) (some modelScale),
     jMul (jDiv (jSub v.2.1 centerY) maxSize) (some modelScale),
     jMul (jDiv (jSub v.2.2 centerZ) maxSize) (some modelScale))

/-- Source `loadOBJ` on a model text: parse, then center and scale; returns
`{verts, facs}`. -/
def loadOBJjs (text : String) : List JSVec × List (List (Option ℤ)) :=
  let p := parseOBJLines (splitLines text.data)
  (jsNormalize p.1, p.2)

/-! ### Helper lemmas -/

theorem clamp_bounds (x lo hi : ℚ) (h : lo ≤ hi) :
    lo ≤ clamp x lo hi ∧ clamp x lo hi ≤ hi :=
  ⟨le_min (le_max_right x lo) h, min_le_right _ _⟩

theorem multiplyMatrices_assoc (a b c : Mat3) :
    multiplyMatrices (multiplyMatrices a b) c = multiplyMatrices a (multiplyMatrices b c) := by
  cases a; cases b; cases c
  simp only [multiplyMatrices, Mat3.mk.injEq]
  refine ⟨?_, ?_, ?_, ?_, ?_, ?_, ?_, ?_, ?_⟩ <;> ring

theorem identityMatrix_mul (m : Mat3) : multiplyMatrices identityMatrix m = m := by
  cases m
  simp only [multiplyMatrices, identityMatrix, Mat3.mk.injEq]
  refine ⟨?_, ?_, ?_, ?_, ?_, ?_, ?_, ?_, ?_⟩ <;> ring

theorem transposeMat_mul (a b : Mat3) :
    transposeMat (multiplyMatrices a b) =
      multiplyMatrices (transposeMat b) (transposeMat a) := by
  cases a; cases b
  simp only [multiplyMatrices, transposeMat, Mat3.mk.injEq]
  refine ⟨?_, ?_, ?_, ?_, ?_, ?_, ?_, ?_, ?_⟩ <;> ring

theorem orthonormal_mul {a b : Mat3}
    (ha : IsOrthonormal a) (hb : IsOrthonormal b) :
    IsOrthonormal (multiplyMatrices a b) := by
  unfold IsOrthonormal at *
  rw [transposeMat_mul, multiplyMatrices_assoc, ← multiplyMatrices_assoc b,
    hb, identityMatrix_mul, ha]

theorem rotationMatrixX_orthonormal (c s : ℚ) (h : c^2 + s^2 = 1) :
    IsOrthonormal (rotationMatrixX c s) := by
  unfold IsOrthonormal
  simp only [rotationMatrixX, transposeMat, multiplyMatrices, identityMatrix, Mat3.mk.injEq]
  refine ⟨?_, ?_, ?_, ?_, ?_, ?_, ?_, ?_, ?_⟩ <;> first | ring1 | linear_combination h

theorem rotationMatrixY_orthonormal (c s : ℚ) (h : c^2 + s^2 = 1) :
    IsOrthonormal (rotationMatrixY c s) := by
  unfold IsOrthonormal
  simp only [rotationMatrixY, transposeMat, multiplyMatrices, identityMatrix, Mat3.mk.injEq]
  refine ⟨?_, ?_, ?_, ?_, ?_, ?_, ?_, ?_, ?_⟩ <;> first | ring1 | linear_combination h

theorem foldl_min_map (f : ℚ → ℚ) (hf : ∀ a b, f (min a b) = min (f a) (f b)) :
    ∀ (l : List ℚ) (a : ℚ), (l.map f).foldl min (f a) = f (l.foldl min a) := by
  intro l
  induction l with
  | nil =>
    intro a
    simp
  | cons x xs ih =>
    intro a
    show (xs.map f).foldl min (min (f a) (f x)) = f (xs.foldl min (min a x))
    rw [← hf]
    exact ih (min a x)

theorem foldl_max_map (f : ℚ → ℚ) (hf : ∀ a b, f (max a b) = max (f a) (f b)) :
    ∀ (l : List ℚ) (a : ℚ), (l.map f).foldl max (f a) = f (l.foldl max a) := by
  intro l
  induction l with
  | nil =>
    intro a
    simp
  | cons x xs ih =>
    intro a
    show (xs.map f).foldl max (max (f a) (f x)) = f (xs.foldl max (max a x))
    rw [← hf]
    exact ih (max a x)

theorem listMin_map (f : ℚ → ℚ) (hf : ∀ a b, f (min a b) = min (f a) (f b))
    (x : ℚ) (xs : List ℚ) : listMin ((x :: xs).map f) = f (listMin (x :: xs)) :=
  foldl_min_map f hf xs x

theorem listMax_map (f : ℚ → ℚ) (hf : ∀ a b, f (max a b) = max (f a) (f b))
    (x : ℚ) (xs : List ℚ) : listMax ((x :: xs).map f) = f (listMax (x :: xs)) :=
  foldl_max_map f hf xs x

theorem affine_mono (c M : ℚ) (hM : 0 < M) {u v : ℚ} (huv : u ≤ v) :
    (u - c) / M * modelScale ≤ (v - c) / M * modelScale := by
  have hk : (0:ℚ) ≤ modelScale / M := div_nonneg (by norm_num [modelScale]) (le_of_lt hM)
  have e : ∀ t : ℚ, (t - c) / M * modelScale = (t - c) * (modelScale / M) := by
    intro t
    ring
  rw [e, e]
  exact mul_le_mul_of_nonneg_right (sub_le_sub_right huv c) hk

theorem affine_min (c M : ℚ) (hM : 0 < M) (a b : ℚ) :
    (min a b - c) / M * modelScale =
      min ((a - c) / M * modelScale) ((b - c) / M * modelScale) := by
  rcases le_total a b with h | h
  · rw [min_eq_left h, min_eq_left (affine_mono c M hM h)]
  · rw [min_eq_right h, min_eq_right (affine_mono c M hM h)]

theorem affine_max (c M : ℚ) (hM : 0 < M) (a b : ℚ) :
    (max a b - c) / M * modelScale =
      max ((a - c) / M * modelScale) ((b - c) / M * modelScale) := by
  rcases le_total a b with h | h
  · rw [max_eq_right h, max_eq_right (affine_mono c M hM h)]
  · rw [max_eq_left h, max_eq_left (affine_mono c M hM h)]

theorem max_mul_nonneg_right (a b k : ℚ) (hk : 0 ≤ k) :
    max (a * k) (b * k) = max a b * k := by
  rcases le_total a b with h | h
  · rw [max_eq_right h, max_eq_right (mul_le_mul_of_nonneg_right h hk)]
  · rw [max_eq_left h, max_eq_left (mul_le_mul_of_nonneg_right h hk)]

theorem centerOf_map_affine (c M : ℚ) (hM : 0 < M) (x : ℚ) (xs : List ℚ)
    (hc : c = centerOf (x :: xs)) :
    centerOf ((x :: xs).map (fun t => (t - c) / M * modelScale)) = 0 := by
  unfold centerOf at *
  rw [listMin_map _ (affine_min c M hM) x xs, listMax_map _ (affine_max c M hM) x xs, hc]
  field_simp
  ring

theorem spanOf_map_affine (c M : ℚ) (hM : 0 < M) (x : ℚ) (xs : List ℚ) :
    spanOf ((x :: xs).map (fun t => (t - c) / M * modelScale)) =
      spanOf (x :: xs) * (modelScale / M) := by
  unfold spanOf
  rw [listMin_map _ (affine_min c M hM) x xs, listMax_map _ (affine_max c M hM) x xs]
  ring

theorem velX_abs_nonincreasing (cosf sinf : ℚ → ℚ) (s : RotState) :
    |(animateTick cosf sinf s).velX| ≤ |s.velX| := by
  unfold animateTick
  split
  · show |s.velX * rotationInertia| ≤ |s.velX|
    rw [abs_mul]
    calc |s.velX| * |rotationInertia| ≤ |s.velX| * 1 :=
          mul_le_mul_of_nonneg_left (by norm_num [rotationInertia, abs_le]) (abs_nonneg _)
      _ = |s.velX| := mul_one _
  · exact le_refl _

theorem ticks_vel (cosf sinf : ℚ → ℚ) (k : ℕ) :
    ∀ s : RotState,
      (∀ j, j < k →
        1/10000 < |s.velX * rotationInertia ^ j| ∨
        1/10000 + 1/100 < |s.velY * rotationInertia ^ j|) →
      (ticks cosf sinf k s).velX = s.velX * rotationInertia ^ k ∧
      (ticks cosf sinf k s).velY = s.velY * rotationInertia ^ k := by
  induction k with
  | zero =>
    intro s _
    simp [ticks]
  | succ n ih =>
    intro s hg
    have h0 : 1/10000 < |s.velX| ∨ 1/10000 + 1/100 < |s.velY| := by
      have := hg 0 (Nat.succ_pos n)
      simpa using this
    have hx : (animateTick cosf sinf s).velX = s.velX * rotationInertia := by
      unfold animateTick
      rw [if_pos h0]
    have hy : (animateTick cosf sinf s).velY = s.velY * rotationInertia := by
      unfold animateTick
      rw [if_pos h0]
    have hg' : ∀ j, j < n →
        1/10000 < |(animateTick cosf sinf s).velX * rotationInertia ^ j| ∨
        1/10000 + 1/100 < |(animateTick cosf sinf s).velY * rotationInertia ^ j| := by
      intro j hj
      rw [hx, hy]
      have hstep := hg (j + 1) (by omega)
      have ex : s.velX * rotationInertia ^ (j + 1) =
          s.velX * rotationInertia * rotationInertia ^ j := by ring
      have ey : s.velY * rotationInertia ^ (j + 1) =
          s.velY * rotationInertia * rotationInertia ^ j := by ring
      rw [ex, ey] at hstep
      exact hstep
    have hrec := ih (animateTick cosf sinf s) hg'
    show (ticks cosf sinf n (animateTick cosf sinf s)).velX = _ ∧
      (ticks cosf sinf n (animateTick cosf sinf s)).velY = _
    rw [hrec.1, hrec.2, hx, hy]
    constructor <;> ring

/-! ### Claims -/

/-- C3: at identity rotation, `project` maps `(x, y, z)` to
`(canvasWidth/2 + x*scale, canvasHeight/2 + y*scale)` with
`scale = fov / (fov + z + 5)`, retaining `z` as depth; for `z = 0` the
scale is `fov/(fov+5)` and the screen position is the canvas center offset
by `x*scale` and `y*scale`. -/
theorem project_identity_spec (v : Vec3) (w h : ℚ) :
    project identityMatrix v w h =
      ⟨w/2 + v.x * (perspectiveFOV / (perspectiveFOV + v.z + 5)),
       h/2 + v.y * (perspectiveFOV / (perspectiveFOV + v.z + 5)),
       v.z⟩ ∧
    (v.z = 0 →
      perspectiveFOV / (perspectiveFOV + v.z + 5) = perspectiveFOV / (perspectiveFOV + 5) ∧
      project identityMatrix v w h =
        ⟨w/2 + v.x * (perspectiveFOV / (perspectiveFOV + 5)),
         h/2 + v.y * (perspectiveFOV / (perspectiveFOV + 5)),
         0⟩) := by
  constructor
  · simp [project, applyMatrix, identityMatrix]
  · intro hz
    refine ⟨by rw [hz, add_zero], ?_⟩
    simp [project, applyMatrix, identityMatrix, hz]

/-- Witness for C3 at the concrete vertex `(1, 2, 0)` on an `800 × 600`
canvas: the scale is `500/505 = 100/101`. -/
theorem project_identity_spec_witness :
    project identityMatrix ⟨1, 2, 0⟩ 800 600 = ⟨400 + 100/101, 300 + 200/101, 0⟩ := by
  have h := (project_identity_spec ⟨1, 2, 0⟩ 800 600).2 rfl
  rw [h.2]
  norm_num [perspectiveFOV]

/-- C5: for every input depth and cursor distance the final dot radius lies
in `[dotMinSize, dotMaxSize]`, the final dot alpha in
`[dotMinAlpha, dotMaxAlpha]`, and the final line alpha in
`[lineMinAlpha, lineMaxAlpha]`. -/
theorem style_values_clamped (pz dist avgZ : ℚ) :
    (dotMinSize ≤ (dotStyle pz dist).1 ∧ (dotStyle pz dist).1 ≤ dotMaxSize) ∧
    (dotMinAlpha ≤ (dotStyle pz dist).2 ∧ (dotStyle pz dist).2 ≤ dotMaxAlpha) ∧
    (lineMinAlpha ≤ faceAlpha avgZ dist ∧ faceAlpha avgZ dist ≤ lineMaxAlpha) :=
  ⟨clamp_bounds _ _ _ (by norm_num [dotMinSize, dotMaxSize]),
   clamp_bounds _ _ _ (by norm_num [dotMinAlpha, dotMaxAlpha]),
   clamp_bounds _ _ _ (by norm_num [lineMinAlpha, lineMaxAlpha])⟩

/-- C6: a dot whose projected position coincides with the cursor has
`cursorFactor = 0` and pre-clamp boost terms equal to the full configured
magnitudes (`dotCursorSizeBoost`, `dotCursorAlphaBoost`); a dot at distance
at least the effect radius has `cursorFactor = 1` and boost terms exactly
`0`. -/
theorem cursor_falloff (dist : ℚ) :
    (cursorFactorOf 0 dotCursorEffectRadius = 0 ∧
     (1 - cursorFactorOf 0 dotCursorEffectRadius) * dotCursorSizeBoost = dotCursorSizeBoost ∧
     (1 - cursorFactorOf 0 dotCursorEffectRadius) * dotCursorAlphaBoost = dotCursorAlphaBoost) ∧
    (dotCursorEffectRadius ≤ dist →
      cursorFactorOf dist dotCursorEffectRadius = 1 ∧
      (1 - cursorFactorOf dist dotCursorEffectRadius) * dotCursorSizeBoost = 0 ∧
      (1 - cursorFactorOf dist dotCursorEffectRadius) * dotCursorAlphaBoost = 0) := by
  constructor
  · norm_num [cursorFactorOf, dotCursorEffectRadius]
  · intro hd
    have h1 : cursorFactorOf dist dotCursorEffectRadius = 1 := by
      unfold cursorFactorOf
      rw [min_eq_right]
      rw [le_div_iff₀ (by norm_num [dotCursorEffectRadius])]
      simpa using hd
    exact ⟨h1, by rw [h1]; ring, by rw [h1]; ring⟩

/-- Witness for C6 at the concrete distance `200 ≥ dotCursorEffectRadius`. -/
theorem cursor_falloff_witness :
    cursorFactorOf 200 dotCursorEffectRadius = 1 ∧
    (1 - cursorFactorOf 200 dotCursorEffectRadius) * dotCursorSizeBoost = 0 ∧
    (1 - cursorFactorOf 200 dotCursorEffectRadius) * dotCursorAlphaBoost = 0 :=
  (cursor_falloff 200).2 (by norm_num [dotCursorEffectRadius])

/-- C7: the dot cursor boost is applied iff the depth `z = -p[2]` (negated
post-rotation z) is strictly greater than `dotCursorZCutoff`, while the
face cursor boost is applied iff the (non-negated) mean post-rotation z is
strictly less than `lineCursorZCutoff`; when the condition fails the boost
term is `0`.  The first conjunct records that `dotStyle` feeds the negated
third component into the cutoff test. -/
theorem cursor_cutoff_directions (pz dist avgZ : ℚ) :
    dotStyle pz dist =
      (clamp ((-pz) * dotSizeDepthEffect + dotSizeOffset + (dotCursorEffects (-pz) dist).1)
         dotMinSize dotMaxSize,
       clamp ((-pz) * dotAlphaDepthEffect + dotAlphaOffset + (dotCursorEffects (-pz) dist).2)
         dotMinAlpha dotMaxAlpha) ∧
    (dotCursorZCutoff < -pz →
      dotCursorEffects (-pz) dist =
        ((1 - cursorFactorOf dist dotCursorEffectRadius) * dotCursorSizeBoost,
         (1 - cursorFactorOf dist dotCursorEffectRadius) * dotCursorAlphaBoost)) ∧
    (-pz ≤ dotCursorZCutoff → dotCursorEffects (-pz) dist = (0, 0)) ∧
    (avgZ < lineCursorZCutoff →
      faceCursorEffect avgZ dist =
        (1 - cursorFactorOf dist lineCursorEffectRadius) * lineCursorAlphaBoost) ∧
    (lineCursorZCutoff ≤ avgZ → faceCursorEffect avgZ dist = 0) := by
  refine ⟨rfl, ?_, ?_, ?_, ?_⟩
  · intro hz
    simp [dotCursorEffects, if_pos hz]
  · intro hz
    simp [dotCursorEffects, if_neg (not_lt.mpr hz)]
  · intro hz
    simp [faceCursorEffect, if_pos hz]
  · intro hz
    simp [faceCursorEffect, if_neg (not_lt.mpr hz)]

/-- Witness for C7 at depths `±1` and cursor distance `0`. -/
theorem cursor_cutoff_directions_witness :
    dotCursorEffects (-(-1 : ℚ)) 0 =
      ((1 - cursorFactorOf 0 dotCursorEffectRadius) * dotCursorSizeBoost,
       (1 - cursorFactorOf 0 dotCursorEffectRadius) * dotCursorAlphaBoost) ∧
    dotCursorEffects (-(1 : ℚ)) 0 = (0, 0) ∧
    faceCursorEffect (-1 : ℚ) 0 =
      (1 - cursorFactorOf 0 lineCursorEffectRadius) * lineCursorAlphaBoost ∧
    faceCursorEffect (1 : ℚ) 0 = 0 :=
  ⟨(cursor_cutoff_directions (-1) 0 0).2.1 (by norm_num [dotCursorZCutoff]),
   (cursor_cutoff_directions 1 0 0).2.2.1 (by norm_num [dotCursorZCutoff]),
   (cursor_cutoff_directions 0 0 (-1)).2.2.2.1 (by norm_num [lineCursorZCutoff]),
   (cursor_cutoff_directions 0 0 1).2.2.2.2 (by norm_num [lineCursorZCutoff])⟩

/-- C1 (amended): for every vertex set parsed by `loadOBJ` whose largest
axis span (`maxSize`) is positive, each output vertex equals
`((v - center) / maxSize) * modelScale` per axis, the output bounding box
is centered at the origin, and its largest axis span equals `modelScale`.
(As stated — for every non-empty vertex set — the claim fails on
degenerate sets with `maxSize = 0`, e.g. a single vertex, where the code
divides by zero; see the counterexample.) -/
theorem normalization_postcondition (verts : List Vec3) (hne : verts ≠ [])
    (hpos : 0 < maxSizeOf verts) :
    normalizeVerts verts = verts.map (fun u =>
      (⟨(u.x - centerOf (xsOf verts)) / maxSizeOf verts * modelScale,
        (u.y - centerOf (ysOf verts)) / maxSizeOf verts * modelScale,
        (u.z - centerOf (zsOf verts)) / maxSizeOf verts * modelScale⟩ : Vec3)) ∧
    centerOf (xsOf (normalizeVerts verts)) = 0 ∧
    centerOf (ysOf (normalizeVerts verts)) = 0 ∧
    centerOf (zsOf (normalizeVerts verts)) = 0 ∧
    maxSizeOf (normalizeVerts verts) = modelScale := by
  obtain ⟨v, vs, rfl⟩ := List.exists_cons_of_ne_nil hne
  have hxs : xsOf (normalizeVerts (v :: vs)) =
      (v.x :: vs.map Vec3.x).map
        (fun t => (t - centerOf (xsOf (v :: vs))) / maxSizeOf (v :: vs) * modelScale) := by
    simp only [normalizeVerts, xsOf, List.map_cons, List.map_map]
    rfl
  have hys : ysOf (normalizeVerts (v :: vs)) =
      (v.y :: vs.map Vec3.y).map
        (fun t => (t - centerOf (ysOf (v :: vs))) / maxSizeOf (v :: vs) * modelScale) := by
    simp only [normalizeVerts, ysOf, List.map_cons, List.map_map]
    rfl
  have hzs : zsOf (normalizeVerts (v :: vs)) =
      (v.z :: vs.map Vec3.z).map
        (fun t => (t - centerOf (zsOf (v :: vs))) / maxSizeOf (v :: vs) * modelScale) := by
    simp only [normalizeVerts, zsOf, List.map_cons, List.map_map]
    rfl
  refine ⟨rfl, ?_, ?_, ?_, ?_⟩
  · rw [hxs]
    exact centerOf_map_affine _ _ hpos v.x (vs.map Vec3.x) rfl
  · rw [hys]
    exact centerOf_map_affine _ _ hpos v.y (vs.map Vec3.y) rfl
  · rw [hzs]
    exact centerOf_map_affine _ _ hpos v.z (vs.map Vec3.z) rfl
  · have hk : (0:ℚ) ≤ modelScale / maxSizeOf (v :: vs) :=
      div_nonneg (by norm_num [modelScale]) (le_of_lt hpos)
    show max (spanOf (xsOf (normalizeVerts (v :: vs))))
        (max (spanOf (ysOf (normalizeVerts (v :: vs))))
          (spanOf (zsOf (normalizeVerts (v :: vs))))) = modelScale
    rw [hxs, hys, hzs,
      spanOf_map_affine _ _ hpos v.x (vs.map Vec3.x),
      spanOf_map_affine _ _ hpos v.y (vs.map Vec3.y),
      spanOf_map_affine _ _ hpos v.z (vs.map Vec3.z),
      max_mul_nonneg_right _ _ _ hk, max_mul_nonneg_right _ _ _ hk]
    show maxSizeOf (v :: vs) * (modelScale / maxSizeOf (v :: vs)) = modelScale
    field_simp

/-- Witness for C1 on the two-vertex set `{(0,0,0), (2,0,0)}` with
`maxSize = 2`. -/
theorem normalization_postcondition_witness :
    centerOf (xsOf (normalizeVerts [⟨0,0,0⟩, ⟨2,0,0⟩])) = 0 ∧
    maxSizeOf (normalizeVerts [⟨0,0,0⟩, ⟨2,0,0⟩]) = modelScale :=
  have h := normalization_postcondition [⟨0,0,0⟩, ⟨2,0,0⟩] (by simp)
    (by with_unfolding_all decide)
  ⟨h.2.1, h.2.2.2.2⟩

/-- Counterexample to C1 as stated: the singleton vertex set `{(1,2,3)}`
is non-empty, but its largest axis span is `0`, the code divides by zero
(NaN in JS; `0` under the `ℚ` division convention), and the output
bounding box's largest span is not `modelScale` under either reading. -/
theorem normalization_postcondition_counterexample :
    ([(⟨1, 2, 3⟩ : Vec3)] ≠ ([] : List Vec3)) ∧
    maxSizeOf (normalizeVerts [⟨1, 2, 3⟩]) ≠ modelScale ∧
    jsNormalize [(some 1, some 2, some 3)] = [(none, none, none)] := by
  refine ⟨by simp, by with_unfolding_all decide, by with_unfolding_all rfl⟩

/-- C2 (amended): starting from `velX = v0` with no new drag input, after
`k` ticks the angular velocity equals `v0 * rotationInertia^k`, provided
the freeze guard (`|velX| > 0.0001 || |velY| > 0.0001 + 0.01`) holds at
each of those ticks; `|velX|` is non-increasing from tick to tick.  (As the
original claim states it — for every `k` and every `v0` — the decay
formula fails: once both velocities fall inside the freeze thresholds the
tick is skipped and the velocity stops decaying; see the
counterexample.) -/
theorem inertia_decay (cosf sinf : ℚ → ℚ) (M0 : Mat3) (v0 w0 : ℚ) (k : ℕ)
    (hg : ∀ j, j < k →
      1/10000 < |v0 * rotationInertia ^ j| ∨
      1/10000 + 1/100 < |w0 * rotationInertia ^ j|) :
    (ticks cosf sinf k ⟨M0, v0, w0⟩).velX = v0 * rotationInertia ^ k ∧
    ∀ s : RotState, |(animateTick cosf sinf s).velX| ≤ |s.velX| :=
  ⟨(ticks_vel cosf sinf k ⟨M0, v0, w0⟩ hg).1, velX_abs_nonincreasing cosf sinf⟩

/-- Witness for C2 at `v0 = 1`, `w0 = 0`, `k = 1`. -/
theorem inertia_decay_witness :
    (ticks (fun _ => 1) (fun _ => 0) 1 ⟨identityMatrix, 1, 0⟩).velX =
      1 * rotationInertia ^ 1 :=
  (inertia_decay (fun _ => 1) (fun _ => 0) identityMatrix 1 0 1 (by
    intro j hj
    have hj0 : j = 0 := by omega
    subst hj0
    left
    simp [abs_one]
    norm_num)).1

/-- Counterexample to C2 as stated: at `v0 = 0.0001` (`velY = 0`) the
freeze guard already fails, the tick is skipped, and after `k = 1` ticks
the velocity is still `0.0001`, not `0.0001 * 0.99`. -/
theorem inertia_decay_counterexample :
    (ticks (fun _ => 1) (fun _ => 0) 1 ⟨identityMatrix, 1/10000, 0⟩).velX ≠
      1/10000 * rotationInertia ^ 1 := by
  with_unfolding_all decide

/-- C4: each integrating tick (guard satisfied) updates the rotation matrix
exactly as `newMatrix = Ry(velY) * (Rx(velX) * oldMatrix)` (with `Rx`, `Ry`
the standard right-handed rotation matrices built from the cosine/sine of
the velocities), and at the fixed angle with cosine `24/25`, sine `7/25`
(about 16.3 degrees) on both axes this composition differs from the
reverse order `Rx * (Ry * oldMatrix)`. -/
theorem rotation_composition_order :
    (∀ (cosf sinf : ℚ → ℚ) (s : RotState),
      1/10000 < |s.velX| ∨ 1/10000 + 1/100 < |s.velY| →
      (animateTick cosf sinf s).mat =
        multiplyMatrices (rotationMatrixY (cosf s.velY) (sinf s.velY))
          (multiplyMatrices (rotationMatrixX (cosf s.velX) (sinf s.velX)) s.mat)) ∧
    multiplyMatrices (rotationMatrixY (24/25) (7/25))
        (multiplyMatrices (rotationMatrixX (24/25) (7/25)) identityMatrix) ≠
      multiplyMatrices (rotationMatrixX (24/25) (7/25))
        (multiplyMatrices (rotationMatrixY (24/25) (7/25)) identityMatrix) := by
  constructor
  · intro cosf sinf s hg
    unfold animateTick
    rw [if_pos hg]
  · with_unfolding_all decide

/-- Witness for C4: a concrete integrating tick (`velX = 1`, `velY = 0`)
composes the matrices in the `Ry * (Rx * M)` order. -/
theorem rotation_composition_order_witness :
    (animateTick (fun _ => (24:ℚ)/25) (fun _ => (7:ℚ)/25) ⟨identityMatrix, 1, 0⟩).mat =
      multiplyMatrices (rotationMatrixY (24/25) (7/25))
        (multiplyMatrices (rotationMatrixX (24/25) (7/25)) identityMatrix) :=
  rotation_composition_order.1 (fun _ => (24:ℚ)/25) (fun _ => (7:ℚ)/25)
    ⟨identityMatrix, 1, 0⟩ (Or.inl (by norm_num [abs_one]))

/-- C8: the rotation matrix is orthonormal as an invariant — it starts as
the identity, which is orthonormal, and every tick's update
`M ↦ Ry * (Rx * M)` with `c² + s² = 1` on each axis preserves
orthonormality (exact arithmetic; no re-orthonormalization exists in the
code). -/
theorem rotation_matrix_orthonormal :
    IsOrthonormal identityMatrix ∧
    ∀ (c1 s1 c2 s2 : ℚ) (M : Mat3),
      c1^2 + s1^2 = 1 → c2^2 + s2^2 = 1 → IsOrthonormal M →
      IsOrthonormal (multiplyMatrices (rotationMatrixY c2 s2)
        (multiplyMatrices (rotationMatrixX c1 s1) M)) := by
  constructor
  · with_unfolding_all decide
  · intro c1 s1 c2 s2 M h1 h2 hM
    exact orthonormal_mul (rotationMatrixY_orthonormal c2 s2 h2)
      (orthonormal_mul (rotationMatrixX_orthonormal c1 s1 h1) hM)

/-- Witness for C8 at the unit pair `(3/5, 4/5)` on both axes, starting
from the identity. -/
theorem rotation_matrix_orthonormal_witness :
    IsOrthonormal (multiplyMatrices (rotationMatrixY (3/5) (4/5))
      (multiplyMatrices (rotationMatrixX (3/5) (4/5)) identityMatrix)) :=
  rotation_matrix_orthonormal.2 (3/5) (4/5) (3/5) (4/5) identityMatrix
    (by norm_num) (by norm_num) rotation_matrix_orthonormal.1

/-- C10: if at the start of a tick `|velX| ≤ 0.0001` and
`|velY| ≤ 0.0001 + 0.01`, the tick leaves `rotationMatrix`, `velX` and
`velY` all unchanged, and so does every number of further ticks (the frozen
velocity never decays to zero); the per-axis thresholds are `0.0001` for
`velX` and `0.0001 + 0.01` for `velY`. -/
theorem freeze_is_noop (cosf sinf : ℚ → ℚ) (s : RotState)
    (hx : |s.velX| ≤ 1/10000) (hy : |s.velY| ≤ 1/10000 + 1/100) :
    animateTick cosf sinf s = s ∧ ∀ k : ℕ, ticks cosf sinf k s = s := by
  have hguard : ¬(1/10000 < |s.velX| ∨ 1/10000 + 1/100 < |s.velY|) := by
    rintro (h | h)
    · exact absurd hx (not_le.mpr h)
    · exact absurd hy (not_le.mpr h)
  have htick : animateTick cosf sinf s = s := by
    unfold animateTick
    rw [if_neg hguard]
  refine ⟨htick, ?_⟩
  intro k
  induction k with
  | zero => rfl
  | succ n ih =>
    show ticks cosf sinf n (animateTick cosf sinf s) = s
    rw [htick, ih]

/-- Witness for C10 at the frozen state `velX = 0.0001`, `velY = 0.01`
(note `0.01 > 0.0001`: the `velY` threshold is the asymmetric one). -/
theorem freeze_is_noop_witness :
    animateTick (fun _ => 1) (fun _ => 0) ⟨identityMatrix, 1/10000, 1/100⟩ =
      ⟨identityMatrix, 1/10000, 1/100⟩ :=
  (freeze_is_noop (fun _ => 1) (fun _ => 0) ⟨identityMatrix, 1/10000, 1/100⟩
    (by norm_num [abs_le]) (by norm_num [abs_le])).1

/-- C9: on the model text `"v 1 abc 3\nv 0 0 0"`, whose first vertex line
has the malformed coordinate token `abc`, `loadOBJ` neither skips the line
nor fails the load: the parse stage stores a NaN (`none`) for that
coordinate while still producing both vertices; the y bounding-box bound
is NaN, and the normalization is corrupted into all-NaN output vertices
(`maxSize` is NaN, and dividing by it poisons every coordinate of every
vertex). -/
theorem malformed_token_nan :
    (parseOBJLines (splitLines ("v 1 abc 3\nv 0 0 0").data)).1 =
      [(some 1, none, some 3), (some 0, some 0, some 0)] ∧
    jsMinList ((parseOBJLines (splitLines ("v 1 abc 3\nv 0 0 0").data)).1.map
      (fun v => v.2.1)) = none ∧
    loadOBJjs "v 1 abc 3\nv 0 0 0" =
      ([(none, none, none), (none, none, none)], []) := by
  refine ⟨?_, ?_, ?_⟩
  · with_unfolding_all rfl
  · with_unfolding_all rfl
  · with_unfolding_all rfl

end RotationMarker
